import Mathlib

/- Verification of the attribute-name classifier of librsvg
   (src/rsvg-attributes.h).  The header declares the closed enum
   RsvgAttribute (146 enumerators, C-default consecutive codes) and the
   entry point rsvg_attribute_from_name, whose implementation lives in
   rust/src/attributes.rs and is therefore modelled here from the spec. -/

/-- The RsvgAttribute enum of src/rsvg-attributes.h (lines 10-157), one
constructor per enumerator, in declaration order. -/
inductive RsvgAttribute : Type where
  | RSVG_ATTRIBUTE_ALTERNATE
  | RSVG_ATTRIBUTE_AMPLITUDE
  | RSVG_ATTRIBUTE_AZIMUTH
  | RSVG_ATTRIBUTE_BASE_FREQUENCY
  | RSVG_ATTRIBUTE_BASELINE_SHIFT
  | RSVG_ATTRIBUTE_BIAS
  | RSVG_ATTRIBUTE_CLASS
  | RSVG_ATTRIBUTE_CLIP_PATH
  | RSVG_ATTRIBUTE_CLIP_RULE
  | RSVG_ATTRIBUTE_CLIP_PATH_UNITS
  | RSVG_ATTRIBUTE_COLOR
  | RSVG_ATTRIBUTE_COMP_OP
  | RSVG_ATTRIBUTE_CX
  | RSVG_ATTRIBUTE_CY
  | RSVG_ATTRIBUTE_D
  | RSVG_ATTRIBUTE_DIFFUSE_CONSTANT
  | RSVG_ATTRIBUTE_DIRECTION
  | RSVG_ATTRIBUTE_DISPLAY
  | RSVG_ATTRIBUTE_DIVISOR
  | RSVG_ATTRIBUTE_DX
  | RSVG_ATTRIBUTE_DY
  | RSVG_ATTRIBUTE_EDGE_MODE
  | RSVG_ATTRIBUTE_ELEVATION
  | RSVG_ATTRIBUTE_ENABLE_BACKGROUND
  | RSVG_ATTRIBUTE_ENCODING
  | RSVG_ATTRIBUTE_EXPONENT
  | RSVG_ATTRIBUTE_FILL
  | RSVG_ATTRIBUTE_FILL_OPACITY
  | RSVG_ATTRIBUTE_FILL_RULE
  | RSVG_ATTRIBUTE_FILTER
  | RSVG_ATTRIBUTE_FILTER_UNITS
  | RSVG_ATTRIBUTE_FLOOD_COLOR
  | RSVG_ATTRIBUTE_FLOOD_OPACITY
  | RSVG_ATTRIBUTE_FONT_FAMILY
  | RSVG_ATTRIBUTE_FONT_SIZE
  | RSVG_ATTRIBUTE_FONT_STRETCH
  | RSVG_ATTRIBUTE_FONT_STYLE
  | RSVG_ATTRIBUTE_FONT_VARIANT
  | RSVG_ATTRIBUTE_FONT_WEIGHT
  | RSVG_ATTRIBUTE_FX
  | RSVG_ATTRIBUTE_FY
  | RSVG_ATTRIBUTE_GRADIENT_TRANSFORM
  | RSVG_ATTRIBUTE_GRADIENT_UNITS
  | RSVG_ATTRIBUTE_HEIGHT
  | RSVG_ATTRIBUTE_HREF
  | RSVG_ATTRIBUTE_ID
  | RSVG_ATTRIBUTE_IN
  | RSVG_ATTRIBUTE_IN2
  | RSVG_ATTRIBUTE_INTERCEPT
  | RSVG_ATTRIBUTE_K1
  | RSVG_ATTRIBUTE_K2
  | RSVG_ATTRIBUTE_K3
  | RSVG_ATTRIBUTE_K4
  | RSVG_ATTRIBUTE_KERNEL_MATRIX
  | RSVG_ATTRIBUTE_KERNEL_UNIT_LENGTH
  | RSVG_ATTRIBUTE_LETTER_SPACING
  | RSVG_ATTRIBUTE_LIGHTING_COLOR
  | RSVG_ATTRIBUTE_LIMITING_CONE_ANGLE
  | RSVG_ATTRIBUTE_MARKER
  | RSVG_ATTRIBUTE_MARKER_END
  | RSVG_ATTRIBUTE_MARKER_MID
  | RSVG_ATTRIBUTE_MARKER_START
  | RSVG_ATTRIBUTE_MARKER_HEIGHT
  | RSVG_ATTRIBUTE_MARKER_UNITS
  | RSVG_ATTRIBUTE_MARKER_WIDTH
  | RSVG_ATTRIBUTE_MASK
  | RSVG_ATTRIBUTE_MASK_CONTENT_UNITS
  | RSVG_ATTRIBUTE_MASK_UNITS
  | RSVG_ATTRIBUTE_MODE
  | RSVG_ATTRIBUTE_NUM_OCTAVES
  | RSVG_ATTRIBUTE_OFFSET
  | RSVG_ATTRIBUTE_OPACITY
  | RSVG_ATTRIBUTE_OPERATOR
  | RSVG_ATTRIBUTE_ORDER
  | RSVG_ATTRIBUTE_ORIENT
  | RSVG_ATTRIBUTE_OVERFLOW
  | RSVG_ATTRIBUTE_PARSE
  | RSVG_ATTRIBUTE_PATH
  | RSVG_ATTRIBUTE_PATTERN_CONTENT_UNITS
  | RSVG_ATTRIBUTE_PATTERN_TRANSFORM
  | RSVG_ATTRIBUTE_PATTERN_UNITS
  | RSVG_ATTRIBUTE_POINTS
  | RSVG_ATTRIBUTE_POINTS_AT_X
  | RSVG_ATTRIBUTE_POINTS_AT_Y
  | RSVG_ATTRIBUTE_POINTS_AT_Z
  | RSVG_ATTRIBUTE_PRESERVE_ALPHA
  | RSVG_ATTRIBUTE_PRESERVE_ASPECT_RATIO
  | RSVG_ATTRIBUTE_PRIMITIVE_UNITS
  | RSVG_ATTRIBUTE_R
  | RSVG_ATTRIBUTE_RADIUS
  | RSVG_ATTRIBUTE_REF_X
  | RSVG_ATTRIBUTE_REF_Y
  | RSVG_ATTRIBUTE_REQUIRED_EXTENSIONS
  | RSVG_ATTRIBUTE_REQUIRED_FEATURES
  | RSVG_ATTRIBUTE_RESULT
  | RSVG_ATTRIBUTE_RX
  | RSVG_ATTRIBUTE_RY
  | RSVG_ATTRIBUTE_SCALE
  | RSVG_ATTRIBUTE_SEED
  | RSVG_ATTRIBUTE_SHAPE_RENDERING
  | RSVG_ATTRIBUTE_SLOPE
  | RSVG_ATTRIBUTE_SPECULAR_CONSTANT
  | RSVG_ATTRIBUTE_SPECULAR_EXPONENT
  | RSVG_ATTRIBUTE_SPREAD_METHOD
  | RSVG_ATTRIBUTE_STD_DEVIATION
  | RSVG_ATTRIBUTE_STITCH_TILES
  | RSVG_ATTRIBUTE_STOP_COLOR
  | RSVG_ATTRIBUTE_STOP_OPACITY
  | RSVG_ATTRIBUTE_STROKE
  | RSVG_ATTRIBUTE_STROKE_DASHARRAY
  | RSVG_ATTRIBUTE_STROKE_DASHOFFSET
  | RSVG_ATTRIBUTE_STROKE_LINECAP
  | RSVG_ATTRIBUTE_STROKE_LINEJOIN
  | RSVG_ATTRIBUTE_STROKE_MITERLIMIT
  | RSVG_ATTRIBUTE_STROKE_OPACITY
  | RSVG_ATTRIBUTE_STROKE_WIDTH
  | RSVG_ATTRIBUTE_STYLE
  | RSVG_ATTRIBUTE_SURFACE_SCALE
  | RSVG_ATTRIBUTE_SYSTEM_LANGUAGE
  | RSVG_ATTRIBUTE_TABLE_VALUES
  | RSVG_ATTRIBUTE_TARGET_X
  | RSVG_ATTRIBUTE_TARGET_Y
  | RSVG_ATTRIBUTE_TEXT_ANCHOR
  | RSVG_ATTRIBUTE_TEXT_DECORATION
  | RSVG_ATTRIBUTE_TEXT_RENDERING
  | RSVG_ATTRIBUTE_TRANSFORM
  | RSVG_ATTRIBUTE_TYPE
  | RSVG_ATTRIBUTE_UNICODE_BIDI
  | RSVG_ATTRIBUTE_VALUES
  | RSVG_ATTRIBUTE_VERTS
  | RSVG_ATTRIBUTE_VIEW_BOX
  | RSVG_ATTRIBUTE_VISIBILITY
  | RSVG_ATTRIBUTE_WIDTH
  | RSVG_ATTRIBUTE_WRITING_MODE
  | RSVG_ATTRIBUTE_X
  | RSVG_ATTRIBUTE_X1
  | RSVG_ATTRIBUTE_Y1
  | RSVG_ATTRIBUTE_X2
  | RSVG_ATTRIBUTE_Y2
  | RSVG_ATTRIBUTE_X_CHANNEL_SELECTOR
  | RSVG_ATTRIBUTE_XLINK_HREF
  | RSVG_ATTRIBUTE_XML_LANG
  | RSVG_ATTRIBUTE_XML_SPACE
  | RSVG_ATTRIBUTE_Y
  | RSVG_ATTRIBUTE_Y_CHANNEL_SELECTOR
  | RSVG_ATTRIBUTE_Z
deriving DecidableEq, Repr

open RsvgAttribute

/-- The ordered sequence of all identifiers (spec section 4.1,
all_identifiers), in the declaration order of the C enum. -/
def all_identifiers : List RsvgAttribute := [
  RSVG_ATTRIBUTE_ALTERNATE,
  RSVG_ATTRIBUTE_AMPLITUDE,
  RSVG_ATTRIBUTE_AZIMUTH,
  RSVG_ATTRIBUTE_BASE_FREQUENCY,
  RSVG_ATTRIBUTE_BASELINE_SHIFT,
  RSVG_ATTRIBUTE_BIAS,
  RSVG_ATTRIBUTE_CLASS,
  RSVG_ATTRIBUTE_CLIP_PATH,
  RSVG_ATTRIBUTE_CLIP_RULE,
  RSVG_ATTRIBUTE_CLIP_PATH_UNITS,
  RSVG_ATTRIBUTE_COLOR,
  RSVG_ATTRIBUTE_COMP_OP,
  RSVG_ATTRIBUTE_CX,
  RSVG_ATTRIBUTE_CY,
  RSVG_ATTRIBUTE_D,
  RSVG_ATTRIBUTE_DIFFUSE_CONSTANT,
  RSVG_ATTRIBUTE_DIRECTION,
  RSVG_ATTRIBUTE_DISPLAY,
  RSVG_ATTRIBUTE_DIVISOR,
  RSVG_ATTRIBUTE_DX,
  RSVG_ATTRIBUTE_DY,
  RSVG_ATTRIBUTE_EDGE_MODE,
  RSVG_ATTRIBUTE_ELEVATION,
  RSVG_ATTRIBUTE_ENABLE_BACKGROUND,
  RSVG_ATTRIBUTE_ENCODING,
  RSVG_ATTRIBUTE_EXPONENT,
  RSVG_ATTRIBUTE_FILL,
  RSVG_ATTRIBUTE_FILL_OPACITY,
  RSVG_ATTRIBUTE_FILL_RULE,
  RSVG_ATTRIBUTE_FILTER,
  RSVG_ATTRIBUTE_FILTER_UNITS,
  RSVG_ATTRIBUTE_FLOOD_COLOR,
  RSVG_ATTRIBUTE_FLOOD_OPACITY,
  RSVG_ATTRIBUTE_FONT_FAMILY,
  RSVG_ATTRIBUTE_FONT_SIZE,
  RSVG_ATTRIBUTE_FONT_STRETCH,
  RSVG_ATTRIBUTE_FONT_STYLE,
  RSVG_ATTRIBUTE_FONT_VARIANT,
  RSVG_ATTRIBUTE_FONT_WEIGHT,
  RSVG_ATTRIBUTE_FX,
  RSVG_ATTRIBUTE_FY,
  RSVG_ATTRIBUTE_GRADIENT_TRANSFORM,
  RSVG_ATTRIBUTE_GRADIENT_UNITS,
  RSVG_ATTRIBUTE_HEIGHT,
  RSVG_ATTRIBUTE_HREF,
  RSVG_ATTRIBUTE_ID,
  RSVG_ATTRIBUTE_IN,
  RSVG_ATTRIBUTE_IN2,
  RSVG_ATTRIBUTE_INTERCEPT,
  RSVG_ATTRIBUTE_K1,
  RSVG_ATTRIBUTE_K2,
  RSVG_ATTRIBUTE_K3,
  RSVG_ATTRIBUTE_K4,
  RSVG_ATTRIBUTE_KERNEL_MATRIX,
  RSVG_ATTRIBUTE_KERNEL_UNIT_LENGTH,
  RSVG_ATTRIBUTE_LETTER_SPACING,
  RSVG_ATTRIBUTE_LIGHTING_COLOR,
  RSVG_ATTRIBUTE_LIMITING_CONE_ANGLE,
  RSVG_ATTRIBUTE_MARKER,
  RSVG_ATTRIBUTE_MARKER_END,
  RSVG_ATTRIBUTE_MARKER_MID,
  RSVG_ATTRIBUTE_MARKER_START,
  RSVG_ATTRIBUTE_MARKER_HEIGHT,
  RSVG_ATTRIBUTE_MARKER_UNITS,
  RSVG_ATTRIBUTE_MARKER_WIDTH,
  RSVG_ATTRIBUTE_MASK,
  RSVG_ATTRIBUTE_MASK_CONTENT_UNITS,
  RSVG_ATTRIBUTE_MASK_UNITS,
  RSVG_ATTRIBUTE_MODE,
  RSVG_ATTRIBUTE_NUM_OCTAVES,
  RSVG_ATTRIBUTE_OFFSET,
  RSVG_ATTRIBUTE_OPACITY,
  RSVG_ATTRIBUTE_OPERATOR,
  RSVG_ATTRIBUTE_ORDER,
  RSVG_ATTRIBUTE_ORIENT,
  RSVG_ATTRIBUTE_OVERFLOW,
  RSVG_ATTRIBUTE_PARSE,
  RSVG_ATTRIBUTE_PATH,
  RSVG_ATTRIBUTE_PATTERN_CONTENT_UNITS,
  RSVG_ATTRIBUTE_PATTERN_TRANSFORM,
  RSVG_ATTRIBUTE_PATTERN_UNITS,
  RSVG_ATTRIBUTE_POINTS,
  RSVG_ATTRIBUTE_POINTS_AT_X,
  RSVG_ATTRIBUTE_POINTS_AT_Y,
  RSVG_ATTRIBUTE_POINTS_AT_Z,
  RSVG_ATTRIBUTE_PRESERVE_ALPHA,
  RSVG_ATTRIBUTE_PRESERVE_ASPECT_RATIO,
  RSVG_ATTRIBUTE_PRIMITIVE_UNITS,
  RSVG_ATTRIBUTE_R,
  RSVG_ATTRIBUTE_RADIUS,
  RSVG_ATTRIBUTE_REF_X,
  RSVG_ATTRIBUTE_REF_Y,
  RSVG_ATTRIBUTE_REQUIRED_EXTENSIONS,
  RSVG_ATTRIBUTE_REQUIRED_FEATURES,
  RSVG_ATTRIBUTE_RESULT,
  RSVG_ATTRIBUTE_RX,
  RSVG_ATTRIBUTE_RY,
  RSVG_ATTRIBUTE_SCALE,
  RSVG_ATTRIBUTE_SEED,
  RSVG_ATTRIBUTE_SHAPE_RENDERING,
  RSVG_ATTRIBUTE_SLOPE,
  RSVG_ATTRIBUTE_SPECULAR_CONSTANT,
  RSVG_ATTRIBUTE_SPECULAR_EXPONENT,
  RSVG_ATTRIBUTE_SPREAD_METHOD,
  RSVG_ATTRIBUTE_STD_DEVIATION,
  RSVG_ATTRIBUTE_STITCH_TILES,
  RSVG_ATTRIBUTE_STOP_COLOR,
  RSVG_ATTRIBUTE_STOP_OPACITY,
  RSVG_ATTRIBUTE_STROKE,
  RSVG_ATTRIBUTE_STROKE_DASHARRAY,
  RSVG_ATTRIBUTE_STROKE_DASHOFFSET,
  RSVG_ATTRIBUTE_STROKE_LINECAP,
  RSVG_ATTRIBUTE_STROKE_LINEJOIN,
  RSVG_ATTRIBUTE_STROKE_MITERLIMIT,
  RSVG_ATTRIBUTE_STROKE_OPACITY,
  RSVG_ATTRIBUTE_STROKE_WIDTH,
  RSVG_ATTRIBUTE_STYLE,
  RSVG_ATTRIBUTE_SURFACE_SCALE,
  RSVG_ATTRIBUTE_SYSTEM_LANGUAGE,
  RSVG_ATTRIBUTE_TABLE_VALUES,
  RSVG_ATTRIBUTE_TARGET_X,
  RSVG_ATTRIBUTE_TARGET_Y,
  RSVG_ATTRIBUTE_TEXT_ANCHOR,
  RSVG_ATTRIBUTE_TEXT_DECORATION,
  RSVG_ATTRIBUTE_TEXT_RENDERING,
  RSVG_ATTRIBUTE_TRANSFORM,
  RSVG_ATTRIBUTE_TYPE,
  RSVG_ATTRIBUTE_UNICODE_BIDI,
  RSVG_ATTRIBUTE_VALUES,
  RSVG_ATTRIBUTE_VERTS,
  RSVG_ATTRIBUTE_VIEW_BOX,
  RSVG_ATTRIBUTE_VISIBILITY,
  RSVG_ATTRIBUTE_WIDTH,
  RSVG_ATTRIBUTE_WRITING_MODE,
  RSVG_ATTRIBUTE_X,
  RSVG_ATTRIBUTE_X1,
  RSVG_ATTRIBUTE_Y1,
  RSVG_ATTRIBUTE_X2,
  RSVG_ATTRIBUTE_Y2,
  RSVG_ATTRIBUTE_X_CHANNEL_SELECTOR,
  RSVG_ATTRIBUTE_XLINK_HREF,
  RSVG_ATTRIBUTE_XML_LANG,
  RSVG_ATTRIBUTE_XML_SPACE,
  RSVG_ATTRIBUTE_Y,
  RSVG_ATTRIBUTE_Y_CHANNEL_SELECTOR,
  RSVG_ATTRIBUTE_Z]

/-- Enumerator names of the C enum, in declaration order, transcribed from
src/rsvg-attributes.h lines 11-156. -/
def enumeratorNames : List String := [
  "RSVG_ATTRIBUTE_ALTERNATE",
  "RSVG_ATTRIBUTE_AMPLITUDE",
  "RSVG_ATTRIBUTE_AZIMUTH",
  "RSVG_ATTRIBUTE_BASE_FREQUENCY",
  "RSVG_ATTRIBUTE_BASELINE_SHIFT",
  "RSVG_ATTRIBUTE_BIAS",
  "RSVG_ATTRIBUTE_CLASS",
  "RSVG_ATTRIBUTE_CLIP_PATH",
  "RSVG_ATTRIBUTE_CLIP_RULE",
  "RSVG_ATTRIBUTE_CLIP_PATH_UNITS",
  "RSVG_ATTRIBUTE_COLOR",
  "RSVG_ATTRIBUTE_COMP_OP",
  "RSVG_ATTRIBUTE_CX",
  "RSVG_ATTRIBUTE_CY",
  "RSVG_ATTRIBUTE_D",
  "RSVG_ATTRIBUTE_DIFFUSE_CONSTANT",
  "RSVG_ATTRIBUTE_DIRECTION",
  "RSVG_ATTRIBUTE_DISPLAY",
  "RSVG_ATTRIBUTE_DIVISOR",
  "RSVG_ATTRIBUTE_DX",
  "RSVG_ATTRIBUTE_DY",
  "RSVG_ATTRIBUTE_EDGE_MODE",
  "RSVG_ATTRIBUTE_ELEVATION",
  "RSVG_ATTRIBUTE_ENABLE_BACKGROUND",
  "RSVG_ATTRIBUTE_ENCODING",
  "RSVG_ATTRIBUTE_EXPONENT",
  "RSVG_ATTRIBUTE_FILL",
  "RSVG_ATTRIBUTE_FILL_OPACITY",
  "RSVG_ATTRIBUTE_FILL_RULE",
  "RSVG_ATTRIBUTE_FILTER",
  "RSVG_ATTRIBUTE_FILTER_UNITS",
  "RSVG_ATTRIBUTE_FLOOD_COLOR",
  "RSVG_ATTRIBUTE_FLOOD_OPACITY",
  "RSVG_ATTRIBUTE_FONT_FAMILY",
  "RSVG_ATTRIBUTE_FONT_SIZE",
  "RSVG_ATTRIBUTE_FONT_STRETCH",
  "RSVG_ATTRIBUTE_FONT_STYLE",
  "RSVG_ATTRIBUTE_FONT_VARIANT",
  "RSVG_ATTRIBUTE_FONT_WEIGHT",
  "RSVG_ATTRIBUTE_FX",
  "RSVG_ATTRIBUTE_FY",
  "RSVG_ATTRIBUTE_GRADIENT_TRANSFORM",
  "RSVG_ATTRIBUTE_GRADIENT_UNITS",
  "RSVG_ATTRIBUTE_HEIGHT",
  "RSVG_ATTRIBUTE_HREF",
  "RSVG_ATTRIBUTE_ID",
  "RSVG_ATTRIBUTE_IN",
  "RSVG_ATTRIBUTE_IN2",
  "RSVG_ATTRIBUTE_INTERCEPT",
  "RSVG_ATTRIBUTE_K1",
  "RSVG_ATTRIBUTE_K2",
  "RSVG_ATTRIBUTE_K3",
  "RSVG_ATTRIBUTE_K4",
  "RSVG_ATTRIBUTE_KERNEL_MATRIX",
  "RSVG_ATTRIBUTE_KERNEL_UNIT_LENGTH",
  "RSVG_ATTRIBUTE_LETTER_SPACING",
  "RSVG_ATTRIBUTE_LIGHTING_COLOR",
  "RSVG_ATTRIBUTE_LIMITING_CONE_ANGLE",
  "RSVG_ATTRIBUTE_MARKER",
  "RSVG_ATTRIBUTE_MARKER_END",
  "RSVG_ATTRIBUTE_MARKER_MID",
  "RSVG_ATTRIBUTE_MARKER_START",
  "RSVG_ATTRIBUTE_MARKER_HEIGHT",
  "RSVG_ATTRIBUTE_MARKER_UNITS",
  "RSVG_ATTRIBUTE_MARKER_WIDTH",
  "RSVG_ATTRIBUTE_MASK",
  "RSVG_ATTRIBUTE_MASK_CONTENT_UNITS",
  "RSVG_ATTRIBUTE_MASK_UNITS",
  "RSVG_ATTRIBUTE_MODE",
  "RSVG_ATTRIBUTE_NUM_OCTAVES",
  "RSVG_ATTRIBUTE_OFFSET",
  "RSVG_ATTRIBUTE_OPACITY",
  "RSVG_ATTRIBUTE_OPERATOR",
  "RSVG_ATTRIBUTE_ORDER",
  "RSVG_ATTRIBUTE_ORIENT",
  "RSVG_ATTRIBUTE_OVERFLOW",
  "RSVG_ATTRIBUTE_PARSE",
  "RSVG_ATTRIBUTE_PATH",
  "RSVG_ATTRIBUTE_PATTERN_CONTENT_UNITS",
  "RSVG_ATTRIBUTE_PATTERN_TRANSFORM",
  "RSVG_ATTRIBUTE_PATTERN_UNITS",
  "RSVG_ATTRIBUTE_POINTS",
  "RSVG_ATTRIBUTE_POINTS_AT_X",
  "RSVG_ATTRIBUTE_POINTS_AT_Y",
  "RSVG_ATTRIBUTE_POINTS_AT_Z",
  "RSVG_ATTRIBUTE_PRESERVE_ALPHA",
  "RSVG_ATTRIBUTE_PRESERVE_ASPECT_RATIO",
  "RSVG_ATTRIBUTE_PRIMITIVE_UNITS",
  "RSVG_ATTRIBUTE_R",
  "RSVG_ATTRIBUTE_RADIUS",
  "RSVG_ATTRIBUTE_REF_X",
  "RSVG_ATTRIBUTE_REF_Y",
  "RSVG_ATTRIBUTE_REQUIRED_EXTENSIONS",
  "RSVG_ATTRIBUTE_REQUIRED_FEATURES",
  "RSVG_ATTRIBUTE_RESULT",
  "RSVG_ATTRIBUTE_RX",
  "RSVG_ATTRIBUTE_RY",
  "RSVG_ATTRIBUTE_SCALE",
  "RSVG_ATTRIBUTE_SEED",
  "RSVG_ATTRIBUTE_SHAPE_RENDERING",
  "RSVG_ATTRIBUTE_SLOPE",
  "RSVG_ATTRIBUTE_SPECULAR_CONSTANT",
  "RSVG_ATTRIBUTE_SPECULAR_EXPONENT",
  "RSVG_ATTRIBUTE_SPREAD_METHOD",
  "RSVG_ATTRIBUTE_STD_DEVIATION",
  "RSVG_ATTRIBUTE_STITCH_TILES",
  "RSVG_ATTRIBUTE_STOP_COLOR",
  "RSVG_ATTRIBUTE_STOP_OPACITY",
  "RSVG_ATTRIBUTE_STROKE",
  "RSVG_ATTRIBUTE_STROKE_DASHARRAY",
  "RSVG_ATTRIBUTE_STROKE_DASHOFFSET",
  "RSVG_ATTRIBUTE_STROKE_LINECAP",
  "RSVG_ATTRIBUTE_STROKE_LINEJOIN",
  "RSVG_ATTRIBUTE_STROKE_MITERLIMIT",
  "RSVG_ATTRIBUTE_STROKE_OPACITY",
  "RSVG_ATTRIBUTE_STROKE_WIDTH",
  "RSVG_ATTRIBUTE_STYLE",
  "RSVG_ATTRIBUTE_SURFACE_SCALE",
  "RSVG_ATTRIBUTE_SYSTEM_LANGUAGE",
  "RSVG_ATTRIBUTE_TABLE_VALUES",
  "RSVG_ATTRIBUTE_TARGET_X",
  "RSVG_ATTRIBUTE_TARGET_Y",
  "RSVG_ATTRIBUTE_TEXT_ANCHOR",
  "RSVG_ATTRIBUTE_TEXT_DECORATION",
  "RSVG_ATTRIBUTE_TEXT_RENDERING",
  "RSVG_ATTRIBUTE_TRANSFORM",
  "RSVG_ATTRIBUTE_TYPE",
  "RSVG_ATTRIBUTE_UNICODE_BIDI",
  "RSVG_ATTRIBUTE_VALUES",
  "RSVG_ATTRIBUTE_VERTS",
  "RSVG_ATTRIBUTE_VIEW_BOX",
  "RSVG_ATTRIBUTE_VISIBILITY",
  "RSVG_ATTRIBUTE_WIDTH",
  "RSVG_ATTRIBUTE_WRITING_MODE",
  "RSVG_ATTRIBUTE_X",
  "RSVG_ATTRIBUTE_X1",
  "RSVG_ATTRIBUTE_Y1",
  "RSVG_ATTRIBUTE_X2",
  "RSVG_ATTRIBUTE_Y2",
  "RSVG_ATTRIBUTE_X_CHANNEL_SELECTOR",
  "RSVG_ATTRIBUTE_XLINK_HREF",
  "RSVG_ATTRIBUTE_XML_LANG",
  "RSVG_ATTRIBUTE_XML_SPACE",
  "RSVG_ATTRIBUTE_Y",
  "RSVG_ATTRIBUTE_Y_CHANNEL_SELECTOR",
  "RSVG_ATTRIBUTE_Z"]

/-- Modelled from the spec: the fixed, immutable (known attribute name,
Identifier) entry set owned by the classifier (spec sections 3 and 4.2); the
implementing file rust/src/attributes.rs is not part of this tree.  One entry
per identifier, in enum order; the canonical spelling is the lowercase,
hyphen-separated form of the attribute name from the source document grammar
(spec section 4.1, e.g. stroke-width), with the namespace-qualified spellings
xlink:href, xml:lang and xml:space kept verbatim (spec sections 8 and 9). -/
def attributeTable : List (String × RsvgAttribute) := [
  ("alternate", RSVG_ATTRIBUTE_ALTERNATE),
  ("amplitude", RSVG_ATTRIBUTE_AMPLITUDE),
  ("azimuth", RSVG_ATTRIBUTE_AZIMUTH),
  ("base-frequency", RSVG_ATTRIBUTE_BASE_FREQUENCY),
  ("baseline-shift", RSVG_ATTRIBUTE_BASELINE_SHIFT),
  ("bias", RSVG_ATTRIBUTE_BIAS),
  ("class", RSVG_ATTRIBUTE_CLASS),
  ("clip-path", RSVG_ATTRIBUTE_CLIP_PATH),
  ("clip-rule", RSVG_ATTRIBUTE_CLIP_RULE),
  ("clip-path-units", RSVG_ATTRIBUTE_CLIP_PATH_UNITS),
  ("color", RSVG_ATTRIBUTE_COLOR),
  ("comp-op", RSVG_ATTRIBUTE_COMP_OP),
  ("cx", RSVG_ATTRIBUTE_CX),
  ("cy", RSVG_ATTRIBUTE_CY),
  ("d", RSVG_ATTRIBUTE_D),
  ("diffuse-constant", RSVG_ATTRIBUTE_DIFFUSE_CONSTANT),
  ("direction", RSVG_ATTRIBUTE_DIRECTION),
  ("display", RSVG_ATTRIBUTE_DISPLAY),
  ("divisor", RSVG_ATTRIBUTE_DIVISOR),
  ("dx", RSVG_ATTRIBUTE_DX),
  ("dy", RSVG_ATTRIBUTE_DY),
  ("edge-mode", RSVG_ATTRIBUTE_EDGE_MODE),
  ("elevation", RSVG_ATTRIBUTE_ELEVATION),
  ("enable-background", RSVG_ATTRIBUTE_ENABLE_BACKGROUND),
  ("encoding", RSVG_ATTRIBUTE_ENCODING),
  ("exponent", RSVG_ATTRIBUTE_EXPONENT),
  ("fill", RSVG_ATTRIBUTE_FILL),
  ("fill-opacity", RSVG_ATTRIBUTE_FILL_OPACITY),
  ("fill-rule", RSVG_ATTRIBUTE_FILL_RULE),
  ("filter", RSVG_ATTRIBUTE_FILTER),
  ("filter-units", RSVG_ATTRIBUTE_FILTER_UNITS),
  ("flood-color", RSVG_ATTRIBUTE_FLOOD_COLOR),
  ("flood-opacity", RSVG_ATTRIBUTE_FLOOD_OPACITY),
  ("font-family", RSVG_ATTRIBUTE_FONT_FAMILY),
  ("font-size", RSVG_ATTRIBUTE_FONT_SIZE),
  ("font-stretch", RSVG_ATTRIBUTE_FONT_STRETCH),
  ("font-style", RSVG_ATTRIBUTE_FONT_STYLE),
  ("font-variant", RSVG_ATTRIBUTE_FONT_VARIANT),
  ("font-weight", RSVG_ATTRIBUTE_FONT_WEIGHT),
  ("fx", RSVG_ATTRIBUTE_FX),
  ("fy", RSVG_ATTRIBUTE_FY),
  ("gradient-transform", RSVG_ATTRIBUTE_GRADIENT_TRANSFORM),
  ("gradient-units", RSVG_ATTRIBUTE_GRADIENT_UNITS),
  ("height", RSVG_ATTRIBUTE_HEIGHT),
  ("href", RSVG_ATTRIBUTE_HREF),
  ("id", RSVG_ATTRIBUTE_ID),
  ("in", RSVG_ATTRIBUTE_IN),
  ("in2", RSVG_ATTRIBUTE_IN2),
  ("intercept", RSVG_ATTRIBUTE_INTERCEPT),
  ("k1", RSVG_ATTRIBUTE_K1),
  ("k2", RSVG_ATTRIBUTE_K2),
  ("k3", RSVG_ATTRIBUTE_K3),
  ("k4", RSVG_ATTRIBUTE_K4),
  ("kernel-matrix", RSVG_ATTRIBUTE_KERNEL_MATRIX),
  ("kernel-unit-length", RSVG_ATTRIBUTE_KERNEL_UNIT_LENGTH),
  ("letter-spacing", RSVG_ATTRIBUTE_LETTER_SPACING),
  ("lighting-color", RSVG_ATTRIBUTE_LIGHTING_COLOR),
  ("limiting-cone-angle", RSVG_ATTRIBUTE_LIMITING_CONE_ANGLE),
  ("marker", RSVG_ATTRIBUTE_MARKER),
  ("marker-end", RSVG_ATTRIBUTE_MARKER_END),
  ("marker-mid", RSVG_ATTRIBUTE_MARKER_MID),
  ("marker-start", RSVG_ATTRIBUTE_MARKER_START),
  ("marker-height", RSVG_ATTRIBUTE_MARKER_HEIGHT),
  ("marker-units", RSVG_ATTRIBUTE_MARKER_UNITS),
  ("marker-width", RSVG_ATTRIBUTE_MARKER_WIDTH),
  ("mask", RSVG_ATTRIBUTE_MASK),
  ("mask-content-units", RSVG_ATTRIBUTE_MASK_CONTENT_UNITS),
  ("mask-units", RSVG_ATTRIBUTE_MASK_UNITS),
  ("mode", RSVG_ATTRIBUTE_MODE),
  ("num-octaves", RSVG_ATTRIBUTE_NUM_OCTAVES),
  ("offset", RSVG_ATTRIBUTE_OFFSET),
  ("opacity", RSVG_ATTRIBUTE_OPACITY),
  ("operator", RSVG_ATTRIBUTE_OPERATOR),
  ("order", RSVG_ATTRIBUTE_ORDER),
  ("orient", RSVG_ATTRIBUTE_ORIENT),
  ("overflow", RSVG_ATTRIBUTE_OVERFLOW),
  ("parse", RSVG_ATTRIBUTE_PARSE),
  ("path", RSVG_ATTRIBUTE_PATH),
  ("pattern-content-units", RSVG_ATTRIBUTE_PATTERN_CONTENT_UNITS),
  ("pattern-transform", RSVG_ATTRIBUTE_PATTERN_TRANSFORM),
  ("pattern-units", RSVG_ATTRIBUTE_PATTERN_UNITS),
  ("points", RSVG_ATTRIBUTE_POINTS),
  ("points-at-x", RSVG_ATTRIBUTE_POINTS_AT_X),
  ("points-at-y", RSVG_ATTRIBUTE_POINTS_AT_Y),
  ("points-at-z", RSVG_ATTRIBUTE_POINTS_AT_Z),
  ("preserve-alpha", RSVG_ATTRIBUTE_PRESERVE_ALPHA),
  ("preserve-aspect-ratio", RSVG_ATTRIBUTE_PRESERVE_ASPECT_RATIO),
  ("primitive-units", RSVG_ATTRIBUTE_PRIMITIVE_UNITS),
  ("r", RSVG_ATTRIBUTE_R),
  ("radius", RSVG_ATTRIBUTE_RADIUS),
  ("ref-x", RSVG_ATTRIBUTE_REF_X),
  ("ref-y", RSVG_ATTRIBUTE_REF_Y),
  ("required-extensions", RSVG_ATTRIBUTE_REQUIRED_EXTENSIONS),
  ("required-features", RSVG_ATTRIBUTE_REQUIRED_FEATURES),
  ("result", RSVG_ATTRIBUTE_RESULT),
  ("rx", RSVG_ATTRIBUTE_RX),
  ("ry", RSVG_ATTRIBUTE_RY),
  ("scale", RSVG_ATTRIBUTE_SCALE),
  ("seed", RSVG_ATTRIBUTE_SEED),
  ("shape-rendering", RSVG_ATTRIBUTE_SHAPE_RENDERING),
  ("slope", RSVG_ATTRIBUTE_SLOPE),
  ("specular-constant", RSVG_ATTRIBUTE_SPECULAR_CONSTANT),
  ("specular-exponent", RSVG_ATTRIBUTE_SPECULAR_EXPONENT),
  ("spread-method", RSVG_ATTRIBUTE_SPREAD_METHOD),
  ("std-deviation", RSVG_ATTRIBUTE_STD_DEVIATION),
  ("stitch-tiles", RSVG_ATTRIBUTE_STITCH_TILES),
  ("stop-color", RSVG_ATTRIBUTE_STOP_COLOR),
  ("stop-opacity", RSVG_ATTRIBUTE_STOP_OPACITY),
  ("stroke", RSVG_ATTRIBUTE_STROKE),
  ("stroke-dasharray", RSVG_ATTRIBUTE_STROKE_DASHARRAY),
  ("stroke-dashoffset", RSVG_ATTRIBUTE_STROKE_DASHOFFSET),
  ("stroke-linecap", RSVG_ATTRIBUTE_STROKE_LINECAP),
  ("stroke-linejoin", RSVG_ATTRIBUTE_STROKE_LINEJOIN),
  ("stroke-miterlimit", RSVG_ATTRIBUTE_STROKE_MITERLIMIT),
  ("stroke-opacity", RSVG_ATTRIBUTE_STROKE_OPACITY),
  ("stroke-width", RSVG_ATTRIBUTE_STROKE_WIDTH),
  ("style", RSVG_ATTRIBUTE_STYLE),
  ("surface-scale", RSVG_ATTRIBUTE_SURFACE_SCALE),
  ("system-language", RSVG_ATTRIBUTE_SYSTEM_LANGUAGE),
  ("table-values", RSVG_ATTRIBUTE_TABLE_VALUES),
  ("target-x", RSVG_ATTRIBUTE_TARGET_X),
  ("target-y", RSVG_ATTRIBUTE_TARGET_Y),
  ("text-anchor", RSVG_ATTRIBUTE_TEXT_ANCHOR),
  ("text-decoration", RSVG_ATTRIBUTE_TEXT_DECORATION),
  ("text-rendering", RSVG_ATTRIBUTE_TEXT_RENDERING),
  ("transform", RSVG_ATTRIBUTE_TRANSFORM),
  ("type", RSVG_ATTRIBUTE_TYPE),
  ("unicode-bidi", RSVG_ATTRIBUTE_UNICODE_BIDI),
  ("values", RSVG_ATTRIBUTE_VALUES),
  ("verts", RSVG_ATTRIBUTE_VERTS),
  ("view-box", RSVG_ATTRIBUTE_VIEW_BOX),
  ("visibility", RSVG_ATTRIBUTE_VISIBILITY),
  ("width", RSVG_ATTRIBUTE_WIDTH),
  ("writing-mode", RSVG_ATTRIBUTE_WRITING_MODE),
  ("x", RSVG_ATTRIBUTE_X),
  ("x1", RSVG_ATTRIBUTE_X1),
  ("y1", RSVG_ATTRIBUTE_Y1),
  ("x2", RSVG_ATTRIBUTE_X2),
  ("y2", RSVG_ATTRIBUTE_Y2),
  ("x-channel-selector", RSVG_ATTRIBUTE_X_CHANNEL_SELECTOR),
  ("xlink:href", RSVG_ATTRIBUTE_XLINK_HREF),
  ("xml:lang", RSVG_ATTRIBUTE_XML_LANG),
  ("xml:space", RSVG_ATTRIBUTE_XML_SPACE),
  ("y", RSVG_ATTRIBUTE_Y),
  ("y-channel-selector", RSVG_ATTRIBUTE_Y_CHANNEL_SELECTOR),
  ("z", RSVG_ATTRIBUTE_Z)]

/-- Modelled from the spec: the same entry set arranged as a sorted table
(strictly increasing keys), the shape the spec sanctions for
binary-search-based matching (spec section 4.2, performance contract). -/
def sortedTable : List (String × RsvgAttribute) := [
  ("alternate", RSVG_ATTRIBUTE_ALTERNATE),
  ("amplitude", RSVG_ATTRIBUTE_AMPLITUDE),
  ("azimuth", RSVG_ATTRIBUTE_AZIMUTH),
  ("base-frequency", RSVG_ATTRIBUTE_BASE_FREQUENCY),
  ("baseline-shift", RSVG_ATTRIBUTE_BASELINE_SHIFT),
  ("bias", RSVG_ATTRIBUTE_BIAS),
  ("class", RSVG_ATTRIBUTE_CLASS),
  ("clip-path", RSVG_ATTRIBUTE_CLIP_PATH),
  ("clip-path-units", RSVG_ATTRIBUTE_CLIP_PATH_UNITS),
  ("clip-rule", RSVG_ATTRIBUTE_CLIP_RULE),
  ("color", RSVG_ATTRIBUTE_COLOR),
  ("comp-op", RSVG_ATTRIBUTE_COMP_OP),
  ("cx", RSVG_ATTRIBUTE_CX),
  ("cy", RSVG_ATTRIBUTE_CY),
  ("d", RSVG_ATTRIBUTE_D),
  ("diffuse-constant", RSVG_ATTRIBUTE_DIFFUSE_CONSTANT),
  ("direction", RSVG_ATTRIBUTE_DIRECTION),
  ("display", RSVG_ATTRIBUTE_DISPLAY),
  ("divisor", RSVG_ATTRIBUTE_DIVISOR),
  ("dx", RSVG_ATTRIBUTE_DX),
  ("dy", RSVG_ATTRIBUTE_DY),
  ("edge-mode", RSVG_ATTRIBUTE_EDGE_MODE),
  ("elevation", RSVG_ATTRIBUTE_ELEVATION),
  ("enable-background", RSVG_ATTRIBUTE_ENABLE_BACKGROUND),
  ("encoding", RSVG_ATTRIBUTE_ENCODING),
  ("exponent", RSVG_ATTRIBUTE_EXPONENT),
  ("fill", RSVG_ATTRIBUTE_FILL),
  ("fill-opacity", RSVG_ATTRIBUTE_FILL_OPACITY),
  ("fill-rule", RSVG_ATTRIBUTE_FILL_RULE),
  ("filter", RSVG_ATTRIBUTE_FILTER),
  ("filter-units", RSVG_ATTRIBUTE_FILTER_UNITS),
  ("flood-color", RSVG_ATTRIBUTE_FLOOD_COLOR),
  ("flood-opacity", RSVG_ATTRIBUTE_FLOOD_OPACITY),
  ("font-family", RSVG_ATTRIBUTE_FONT_FAMILY),
  ("font-size", RSVG_ATTRIBUTE_FONT_SIZE),
  ("font-stretch", RSVG_ATTRIBUTE_FONT_STRETCH),
  ("font-style", RSVG_ATTRIBUTE_FONT_STYLE),
  ("font-variant", RSVG_ATTRIBUTE_FONT_VARIANT),
  ("font-weight", RSVG_ATTRIBUTE_FONT_WEIGHT),
  ("fx", RSVG_ATTRIBUTE_FX),
  ("fy", RSVG_ATTRIBUTE_FY),
  ("gradient-transform", RSVG_ATTRIBUTE_GRADIENT_TRANSFORM),
  ("gradient-units", RSVG_ATTRIBUTE_GRADIENT_UNITS),
  ("height", RSVG_ATTRIBUTE_HEIGHT),
  ("href", RSVG_ATTRIBUTE_HREF),
  ("id", RSVG_ATTRIBUTE_ID),
  ("in", RSVG_ATTRIBUTE_IN),
  ("in2", RSVG_ATTRIBUTE_IN2),
  ("intercept", RSVG_ATTRIBUTE_INTERCEPT),
  ("k1", RSVG_ATTRIBUTE_K1),
  ("k2", RSVG_ATTRIBUTE_K2),
  ("k3", RSVG_ATTRIBUTE_K3),
  ("k4", RSVG_ATTRIBUTE_K4),
  ("kernel-matrix", RSVG_ATTRIBUTE_KERNEL_MATRIX),
  ("kernel-unit-length", RSVG_ATTRIBUTE_KERNEL_UNIT_LENGTH),
  ("letter-spacing", RSVG_ATTRIBUTE_LETTER_SPACING),
  ("lighting-color", RSVG_ATTRIBUTE_LIGHTING_COLOR),
  ("limiting-cone-angle", RSVG_ATTRIBUTE_LIMITING_CONE_ANGLE),
  ("marker", RSVG_ATTRIBUTE_MARKER),
  ("marker-end", RSVG_ATTRIBUTE_MARKER_END),
  ("marker-height", RSVG_ATTRIBUTE_MARKER_HEIGHT),
  ("marker-mid", RSVG_ATTRIBUTE_MARKER_MID),
  ("marker-start", RSVG_ATTRIBUTE_MARKER_START),
  ("marker-units", RSVG_ATTRIBUTE_MARKER_UNITS),
  ("marker-width", RSVG_ATTRIBUTE_MARKER_WIDTH),
  ("mask", RSVG_ATTRIBUTE_MASK),
  ("mask-content-units", RSVG_ATTRIBUTE_MASK_CONTENT_UNITS),
  ("mask-units", RSVG_ATTRIBUTE_MASK_UNITS),
  ("mode", RSVG_ATTRIBUTE_MODE),
  ("num-octaves", RSVG_ATTRIBUTE_NUM_OCTAVES),
  ("offset", RSVG_ATTRIBUTE_OFFSET),
  ("opacity", RSVG_ATTRIBUTE_OPACITY),
  ("operator", RSVG_ATTRIBUTE_OPERATOR),
  ("order", RSVG_ATTRIBUTE_ORDER),
  ("orient", RSVG_ATTRIBUTE_ORIENT),
  ("overflow", RSVG_ATTRIBUTE_OVERFLOW),
  ("parse", RSVG_ATTRIBUTE_PARSE),
  ("path", RSVG_ATTRIBUTE_PATH),
  ("pattern-content-units", RSVG_ATTRIBUTE_PATTERN_CONTENT_UNITS),
  ("pattern-transform", RSVG_ATTRIBUTE_PATTERN_TRANSFORM),
  ("pattern-units", RSVG_ATTRIBUTE_PATTERN_UNITS),
  ("points", RSVG_ATTRIBUTE_POINTS),
  ("points-at-x", RSVG_ATTRIBUTE_POINTS_AT_X),
  ("points-at-y", RSVG_ATTRIBUTE_POINTS_AT_Y),
  ("points-at-z", RSVG_ATTRIBUTE_POINTS_AT_Z),
  ("preserve-alpha", RSVG_ATTRIBUTE_PRESERVE_ALPHA),
  ("preserve-aspect-ratio", RSVG_ATTRIBUTE_PRESERVE_ASPECT_RATIO),
  ("primitive-units", RSVG_ATTRIBUTE_PRIMITIVE_UNITS),
  ("r", RSVG_ATTRIBUTE_R),
  ("radius", RSVG_ATTRIBUTE_RADIUS),
  ("ref-x", RSVG_ATTRIBUTE_REF_X),
  ("ref-y", RSVG_ATTRIBUTE_REF_Y),
  ("required-extensions", RSVG_ATTRIBUTE_REQUIRED_EXTENSIONS),
  ("required-features", RSVG_ATTRIBUTE_REQUIRED_FEATURES),
  ("result", RSVG_ATTRIBUTE_RESULT),
  ("rx", RSVG_ATTRIBUTE_RX),
  ("ry", RSVG_ATTRIBUTE_RY),
  ("scale", RSVG_ATTRIBUTE_SCALE),
  ("seed", RSVG_ATTRIBUTE_SEED),
  ("shape-rendering", RSVG_ATTRIBUTE_SHAPE_RENDERING),
  ("slope", RSVG_ATTRIBUTE_SLOPE),
  ("specular-constant", RSVG_ATTRIBUTE_SPECULAR_CONSTANT),
  ("specular-exponent", RSVG_ATTRIBUTE_SPECULAR_EXPONENT),
  ("spread-method", RSVG_ATTRIBUTE_SPREAD_METHOD),
  ("std-deviation", RSVG_ATTRIBUTE_STD_DEVIATION),
  ("stitch-tiles", RSVG_ATTRIBUTE_STITCH_TILES),
  ("stop-color", RSVG_ATTRIBUTE_STOP_COLOR),
  ("stop-opacity", RSVG_ATTRIBUTE_STOP_OPACITY),
  ("stroke", RSVG_ATTRIBUTE_STROKE),
  ("stroke-dasharray", RSVG_ATTRIBUTE_STROKE_DASHARRAY),
  ("stroke-dashoffset", RSVG_ATTRIBUTE_STROKE_DASHOFFSET),
  ("stroke-linecap", RSVG_ATTRIBUTE_STROKE_LINECAP),
  ("stroke-linejoin", RSVG_ATTRIBUTE_STROKE_LINEJOIN),
  ("stroke-miterlimit", RSVG_ATTRIBUTE_STROKE_MITERLIMIT),
  ("stroke-opacity", RSVG_ATTRIBUTE_STROKE_OPACITY),
  ("stroke-width", RSVG_ATTRIBUTE_STROKE_WIDTH),
  ("style", RSVG_ATTRIBUTE_STYLE),
  ("surface-scale", RSVG_ATTRIBUTE_SURFACE_SCALE),
  ("system-language", RSVG_ATTRIBUTE_SYSTEM_LANGUAGE),
  ("table-values", RSVG_ATTRIBUTE_TABLE_VALUES),
  ("target-x", RSVG_ATTRIBUTE_TARGET_X),
  ("target-y", RSVG_ATTRIBUTE_TARGET_Y),
  ("text-anchor", RSVG_ATTRIBUTE_TEXT_ANCHOR),
  ("text-decoration", RSVG_ATTRIBUTE_TEXT_DECORATION),
  ("text-rendering", RSVG_ATTRIBUTE_TEXT_RENDERING),
  ("transform", RSVG_ATTRIBUTE_TRANSFORM),
  ("type", RSVG_ATTRIBUTE_TYPE),
  ("unicode-bidi", RSVG_ATTRIBUTE_UNICODE_BIDI),
  ("values", RSVG_ATTRIBUTE_VALUES),
  ("verts", RSVG_ATTRIBUTE_VERTS),
  ("view-box", RSVG_ATTRIBUTE_VIEW_BOX),
  ("visibility", RSVG_ATTRIBUTE_VISIBILITY),
  ("width", RSVG_ATTRIBUTE_WIDTH),
  ("writing-mode", RSVG_ATTRIBUTE_WRITING_MODE),
  ("x", RSVG_ATTRIBUTE_X),
  ("x-channel-selector", RSVG_ATTRIBUTE_X_CHANNEL_SELECTOR),
  ("x1", RSVG_ATTRIBUTE_X1),
  ("x2", RSVG_ATTRIBUTE_X2),
  ("xlink:href", RSVG_ATTRIBUTE_XLINK_HREF),
  ("xml:lang", RSVG_ATTRIBUTE_XML_LANG),
  ("xml:space", RSVG_ATTRIBUTE_XML_SPACE),
  ("y", RSVG_ATTRIBUTE_Y),
  ("y-channel-selector", RSVG_ATTRIBUTE_Y_CHANNEL_SELECTOR),
  ("y1", RSVG_ATTRIBUTE_Y1),
  ("y2", RSVG_ATTRIBUTE_Y2),
  ("z", RSVG_ATTRIBUTE_Z)]


/-- The C integer code of an enumerator: C enum defaulting assigns each
enumerator its position in the declaration list. -/
def code (a : RsvgAttribute) : Nat := all_identifiers.indexOf a

/-- Modelled from the spec: classify(name) (spec section 4.2) -- exact,
case-sensitive lookup of the whole name string in the fixed table; NotFound
is the none result. -/
def classify (name : String) : Option RsvgAttribute :=
  attributeTable.lookup name

/-- Modelled from the spec: the entry point rsvg_attribute_from_name declared
at src/rsvg-attributes.h line 161 and implemented in rust/src/attributes.rs.
State passing makes the out-slot explicit: the function receives the current
contents of *out_attr and returns the gboolean result together with the new
contents -- the matched identifier on success (true = matched and identifier
written, spec section 6), the slot untouched otherwise. -/
def rsvg_attribute_from_name (name : String) (out_attr : RsvgAttribute) :
    Bool × RsvgAttribute :=
  match classify name with
  | some a => (true, a)
  | none => (false, out_attr)

/-- Lexicographic (alphabetical) strict order on character lists, by code
point; structural, so it evaluates inside the kernel. -/
def lexLt : List Char → List Char → Bool
  | [], [] => false
  | [], _ :: _ => true
  | _ :: _, [] => false
  | a :: s, b :: t =>
    if a.toNat < b.toNat then true
    else if b.toNat < a.toNat then false
    else lexLt s t

/-- Alphabetical strict order on strings: lexicographic by code point. -/
def strLt (s t : String) : Bool := lexLt s.data t.data

/-- Boolean check that a list of strings is in strictly increasing
alphabetical order, comparing consecutive entries. -/
def strictlyIncreasing : List String → Bool
  | [] => true
  | [_] => true
  | a :: b :: t => strLt a b && strictlyIncreasing (b :: t)

/-- One classify call per query, in sequence: the call sequence model used to
state determinism of repeated calls (spec section 8). -/
def runCalls (queries : List String) : List (Option RsvgAttribute) :=
  queries.map classify

/-- Table entry probed at position i during the binary search (getD with a
dummy default; every probe in a run stays in bounds). -/
def probe (i : Nat) : String × RsvgAttribute :=
  sortedTable.getD i ("", RSVG_ATTRIBUTE_ALTERNATE)

/-- Modelled from the spec: binary-search matching over the sorted table, the
mechanism the spec sanctions for the performance contract (spec section 4.2),
instrumented with the number of key comparisons performed.  The interval
[lo, hi) halves at each probe; fuel bounds the recursion depth.  Returns
(comparison count, lookup result). -/
def bsearchAux (key : String) : Nat → Nat → Nat → Nat × Option RsvgAttribute
  | 0, _, _ => (0, none)
  | fuel + 1, lo, hi =>
    if lo < hi then
      if key = (probe ((lo + hi) / 2)).1 then
        (1, some (probe ((lo + hi) / 2)).2)
      else if strLt key (probe ((lo + hi) / 2)).1 then
        ((bsearchAux key fuel lo ((lo + hi) / 2)).1 + 1,
          (bsearchAux key fuel lo ((lo + hi) / 2)).2)
      else
        ((bsearchAux key fuel ((lo + hi) / 2 + 1) hi).1 + 1,
          (bsearchAux key fuel ((lo + hi) / 2 + 1) hi).2)
    else (0, none)

/-- Modelled from the spec: the binary-search classifier with its comparison
count; fuel 8 covers the whole 146-entry table since 146 < 2 ^ 8. -/
def classifyBin (key : String) : Nat × Option RsvgAttribute :=
  bsearchAux key 8 0 sortedTable.length

/-! ### Helper lemmas shared by the claim theorems -/

theorem lookup_of_mem {α β : Type} [BEq α] [LawfulBEq α] {l : List (α × β)}
    (hnd : (l.map Prod.fst).Nodup) {k : α} {v : β} (h : (k, v) ∈ l) :
    l.lookup k = some v := by
  induction l with
  | nil => exact absurd h (List.not_mem_nil _)
  | cons p t ih =>
    obtain ⟨pk, pv⟩ := p
    simp only [List.map_cons, List.nodup_cons] at hnd
    rcases List.mem_cons.mp h with heq | hmem
    · cases heq
      simp [List.lookup_cons]
    · have hk : k ≠ pk := by
        intro hkk
        subst hkk
        exact hnd.1 (List.mem_map.mpr ⟨(k, v), hmem, rfl⟩)
      have hb : (k == pk) = false := beq_false_of_ne hk
      simp [List.lookup_cons, hb, ih hnd.2 hmem]

theorem mem_of_lookup {α β : Type} [BEq α] [LawfulBEq α] {l : List (α × β)}
    {k : α} {v : β} (h : l.lookup k = some v) : (k, v) ∈ l := by
  obtain ⟨l₁, l₂, rfl, -⟩ := List.lookup_eq_some_iff.mp h
  simp

theorem lookup_eq_none_key {α β : Type} [BEq α] [LawfulBEq α] {l : List (α × β)}
    {k : α} : l.lookup k = none ↔ k ∉ l.map Prod.fst := by
  rw [List.lookup_eq_none_iff]
  constructor
  · intro h hk
    obtain ⟨p, hp, hfp⟩ := List.mem_map.mp hk
    exact bne_iff_ne.mp (h p hp) hfp.symm
  · intro h p hp
    exact bne_iff_ne.mpr fun e => h (List.mem_map.mpr ⟨p, hp, e.symm⟩)

set_option maxRecDepth 8192 in
theorem keys_nodup : (attributeTable.map Prod.fst).Nodup := by decide

set_option maxRecDepth 8192 in
theorem ids_nodup : all_identifiers.Nodup := by decide

set_option maxRecDepth 8192 in
theorem values_eq : attributeTable.map Prod.snd = all_identifiers := by decide

theorem mem_all_identifiers (a : RsvgAttribute) : a ∈ all_identifiers := by
  cases a <;> decide

theorem exists_entry (a : RsvgAttribute) : ∃ n, (n, a) ∈ attributeTable := by
  have : a ∈ attributeTable.map Prod.snd := values_eq ▸ mem_all_identifiers a
  obtain ⟨p, hp, hpa⟩ := List.mem_map.mp this
  exact ⟨p.1, by rwa [show (p.1, a) = p from by rw [← hpa]]⟩

theorem vals_nodup : (attributeTable.map Prod.snd).Nodup :=
  values_eq ▸ ids_nodup

theorem entry_val_inj {p q : String × RsvgAttribute} (hp : p ∈ attributeTable)
    (hq : q ∈ attributeTable) (h : p.2 = q.2) : p = q :=
  List.inj_on_of_nodup_map vals_nodup hp hq h

theorem entry_key_inj {p q : String × RsvgAttribute} (hp : p ∈ attributeTable)
    (hq : q ∈ attributeTable) (h : p.1 = q.1) : p = q :=
  List.inj_on_of_nodup_map keys_nodup hp hq h

/-! ### Claim theorems -/

/-- C1: classify returns exactly one Identifier if and only if the input
equals, case-sensitively and byte for byte, the canonical spelling of some
known attribute kind -- classify name = some a exactly when (name, a) is an
entry of the fixed table, such an identifier being unique -- and returns the
NotFound result (none) exactly when the name is no canonical spelling; no
trimming, case folding or partial matching takes place, for any input. -/
theorem classify_exact_match (name : String) :
    (∀ a : RsvgAttribute, classify name = some a ↔ (name, a) ∈ attributeTable) ∧
    (∀ a b : RsvgAttribute,
      (name, a) ∈ attributeTable → (name, b) ∈ attributeTable → a = b) ∧
    (classify name = none ↔ name ∉ attributeTable.map Prod.fst) := by
  refine ⟨fun a => ⟨mem_of_lookup, lookup_of_mem keys_nodup⟩, ?_, lookup_eq_none_key⟩
  intro a b ha hb
  have := entry_key_inj ha hb rfl
  exact congrArg Prod.snd this

/-- C2: classify maps "fill" to the FILL identifier, "stroke-width" to the
STROKE_WIDTH identifier and the namespace-qualified "xlink:href" verbatim to
the XLINK_HREF identifier, while "Fill" (case mismatch), the empty string and
"data-custom" (foreign attribute) are all unrecognized. -/
theorem classify_examples :
    classify "fill" = some RSVG_ATTRIBUTE_FILL ∧
    classify "stroke-width" = some RSVG_ATTRIBUTE_STROKE_WIDTH ∧
    classify "xlink:href" = some RSVG_ATTRIBUTE_XLINK_HREF ∧
    classify "Fill" = none ∧
    classify "" = none ∧
    classify "data-custom" = none := by
  exact ⟨rfl, rfl, rfl, rfl, rfl, rfl⟩

/-- C3: the known name-to-identifier mapping is injective (no two distinct
known names share an identifier: entries with equal identifiers are the same
entry) and surjective onto the identifier set (every identifier is the
classification of at least one known name). -/
theorem mapping_injective_surjective :
    (∀ p ∈ attributeTable, ∀ q ∈ attributeTable, p.2 = q.2 → p.1 = q.1) ∧
    (∀ a : RsvgAttribute, ∃ n, classify n = some a) := by
  constructor
  · intro p hp q hq h
    exact congrArg Prod.fst (entry_val_inj hp hq h)
  · intro a
    obtain ⟨n, hn⟩ := exists_entry a
    exact ⟨n, lookup_of_mem keys_nodup hn⟩

/-- C4: classify is deterministic and side-effect free -- any two calls on the
same input agree, and in any sequence of calls each call's result equals what
the single sequential call on that query returns. -/
theorem classify_deterministic (n : String) (queries : List String) (i : Nat) :
    classify n = classify n ∧
    (runCalls queries)[i]? = queries[i]?.map classify :=
  ⟨rfl, List.getElem?_map ..⟩

/-- C5: classify is total and never fails: every string yields either a match
or the first-class NotFound result none; there is no error outcome. -/
theorem classify_total (name : String) :
    (∃ a, classify name = some a) ∨ classify name = none := by
  cases h : classify name with
  | none => exact Or.inr rfl
  | some a => exact Or.inl ⟨a, rfl⟩

/-- C6: the entry point takes a name and the out-slot and returns a boolean
success indicator: the result is true exactly when the name matched a known
spelling, and then the matched identifier is the new slot contents; it is
false exactly when the name is unrecognized. -/
theorem rsvg_attribute_from_name_contract (name : String) (out_attr : RsvgAttribute) :
    ((rsvg_attribute_from_name name out_attr).1 = true ↔
      classify name = some (rsvg_attribute_from_name name out_attr).2) ∧
    ((rsvg_attribute_from_name name out_attr).1 = true ↔
      name ∈ attributeTable.map Prod.fst) ∧
    ((rsvg_attribute_from_name name out_attr).1 = false ↔ classify name = none) := by
  cases h : classify name with
  | none =>
    have hk := lookup_eq_none_key.mp h
    simp [rsvg_attribute_from_name, h, hk]
  | some a =>
    have hk : name ∈ attributeTable.map Prod.fst :=
      List.mem_map.mpr ⟨(name, a), mem_of_lookup h, rfl⟩
    simp [rsvg_attribute_from_name, h, hk]

set_option maxRecDepth 16384 in
/-- C7: the identifier set carries a stable total order (via the C codes) with
all values distinct and fixed, and every identifier corresponds to exactly one
canonical name string as it appears in the document grammar -- lowercase
(no uppercase character occurs in any known name), e.g. the STROKE_WIDTH kind
corresponds to the literal spelling "stroke-width". -/
theorem identifier_canonical_contract :
    (∀ a b : RsvgAttribute, code a ≤ code b ∨ code b ≤ code a) ∧
    (∀ a b : RsvgAttribute, code a = code b → a = b) ∧
    (∀ a : RsvgAttribute, ∃! n : String, (n, a) ∈ attributeTable) ∧
    ("stroke-width", RSVG_ATTRIBUTE_STROKE_WIDTH) ∈ attributeTable ∧
    (∀ p ∈ attributeTable, ∀ c ∈ p.1.data, c.isUpper = false) := by
  refine ⟨fun a b => Nat.le_total _ _, ?_, ?_, ?_, ?_⟩
  · intro a b h
    exact (List.indexOf_inj (mem_all_identifiers a) (mem_all_identifiers b)).mp h
  · intro a
    obtain ⟨n, hn⟩ := exists_entry a
    exact ⟨n, hn, fun m hm => congrArg Prod.fst (entry_val_inj hm hn rfl)⟩
  · decide
  · decide

/-- C9: frame effect of rsvg_attribute_from_name -- whenever the call returns
false (no match), the out-slot keeps its prior contents; the identifier is
written exactly in the true case. -/
theorem rsvg_attribute_from_name_frame (name : String) (out_attr : RsvgAttribute)
    (h : (rsvg_attribute_from_name name out_attr).1 = false) :
    (rsvg_attribute_from_name name out_attr).2 = out_attr := by
  revert h
  unfold rsvg_attribute_from_name
  cases classify name <;> simp

/-- C9 witness: a concrete unrecognized name leaves a concrete prior slot
value in place. -/
theorem rsvg_attribute_from_name_frame_witness :
    (rsvg_attribute_from_name "data-foo" RSVG_ATTRIBUTE_STROKE).2 =
      RSVG_ATTRIBUTE_STROKE :=
  rsvg_attribute_from_name_frame "data-foo" RSVG_ATTRIBUTE_STROKE (by decide)

set_option maxRecDepth 16384 in
/-- C10: the closed identifier set has exactly 146 distinct values with
consecutive C-defaulted codes 0..145 (ALTERNATE = 0 through Z = 145), and the
declared enumeration order is not strictly alphabetical: Y1 is declared before
X2 though X2 sorts first, and MARKER_START is declared before MARKER_HEIGHT
though MARKER_HEIGHT sorts first. -/
theorem enum_codes_consecutive :
    all_identifiers.length = 146 ∧
    all_identifiers.Nodup ∧
    all_identifiers.map code = List.range 146 ∧
    code RSVG_ATTRIBUTE_ALTERNATE = 0 ∧
    code RSVG_ATTRIBUTE_Z = 145 ∧
    enumeratorNames.length = 146 ∧
    strictlyIncreasing enumeratorNames = false ∧
    code RSVG_ATTRIBUTE_Y1 < code RSVG_ATTRIBUTE_X2 ∧
    strLt "RSVG_ATTRIBUTE_X2" "RSVG_ATTRIBUTE_Y1" = true ∧
    code RSVG_ATTRIBUTE_MARKER_START < code RSVG_ATTRIBUTE_MARKER_HEIGHT ∧
    strLt "RSVG_ATTRIBUTE_MARKER_HEIGHT" "RSVG_ATTRIBUTE_MARKER_START" = true := by
  refine ⟨rfl, ids_nodup, ?_, ?_, ?_, rfl, ?_, ?_, ?_, ?_, ?_⟩ <;> decide

/-! ### Order lemmas for the lexicographic comparison -/

theorem lexLt_irrefl : ∀ s : List Char, lexLt s s = false
  | [] => rfl
  | a :: s => by simp [lexLt, Nat.lt_irrefl, lexLt_irrefl s]

theorem lexLt_trans : ∀ {s t u : List Char},
    lexLt s t = true → lexLt t u = true → lexLt s u = true
  | [], [], _, h₁, _ => by simp [lexLt] at h₁
  | [], _ :: _, [], _, h₂ => by simp [lexLt] at h₂
  | [], _ :: _, _ :: _, _, _ => rfl
  | _ :: _, [], _, h₁, _ => by simp [lexLt] at h₁
  | _ :: _, _ :: _, [], _, h₂ => by simp [lexLt] at h₂
  | a :: s, b :: t, c :: u, h₁, h₂ => by
    simp only [lexLt] at h₁ h₂ ⊢
    rcases Nat.lt_trichotomy a.toNat b.toNat with hab | hab | hab
    · rcases Nat.lt_trichotomy b.toNat c.toNat with hbc | hbc | hbc
      · rw [if_pos (Nat.lt_trans hab hbc)]
      · rw [if_pos (hbc ▸ hab)]
      · rw [if_neg (Nat.lt_asymm hbc), if_pos hbc] at h₂
        exact absurd h₂ (by simp)
    · rcases Nat.lt_trichotomy b.toNat c.toNat with hbc | hbc | hbc
      · rw [if_pos (hab ▸ hbc)]
      · rw [if_neg (by omega : ¬ a.toNat < c.toNat),
          if_neg (by omega : ¬ c.toNat < a.toNat)]
        rw [if_neg (by omega : ¬ a.toNat < b.toNat),
          if_neg (by omega : ¬ b.toNat < a.toNat)] at h₁
        rw [if_neg (by omega : ¬ b.toNat < c.toNat),
          if_neg (by omega : ¬ c.toNat < b.toNat)] at h₂
        exact lexLt_trans h₁ h₂
      · rw [if_neg (Nat.lt_asymm hbc), if_pos hbc] at h₂
        exact absurd h₂ (by simp)
    · rw [if_neg (Nat.lt_asymm hab), if_pos hab] at h₁
      exact absurd h₁ (by simp)

theorem strLt_irrefl (s : String) : strLt s s = false := by
  simp [strLt, lexLt_irrefl]

theorem strLt_trans {s t u : String} (h₁ : strLt s t = true) (h₂ : strLt t u = true) :
    strLt s u = true :=
  lexLt_trans h₁ h₂

theorem strLt_asymm {s t : String} (h₁ : strLt s t = true) (h₂ : strLt t s = true) :
    False := by
  have h := strLt_trans h₁ h₂
  rw [strLt_irrefl] at h
  exact absurd h (by simp)

/-! ### Sortedness of the sorted table -/

set_option maxRecDepth 16384 in
theorem sortedTable_increasing :
    strictlyIncreasing (sortedTable.map Prod.fst) = true := by decide

theorem chain_of_strictlyIncreasing : ∀ (l : List String),
    strictlyIncreasing l = true → List.Chain' (fun a b => strLt a b = true) l
  | [], _ => List.chain'_nil
  | [a], _ => List.chain'_singleton a
  | a :: b :: t, h => by
    have h' := h
    simp only [strictlyIncreasing, Bool.and_eq_true] at h'
    exact List.Chain'.cons h'.1 (chain_of_strictlyIncreasing (b :: t) h'.2)

theorem sortedTable_pairwise :
    List.Pairwise (fun p q : String × RsvgAttribute => strLt p.1 q.1 = true)
      sortedTable := by
  have hch := chain_of_strictlyIncreasing _ sortedTable_increasing
  haveI : IsTrans String (fun a b => strLt a b = true) :=
    ⟨fun _ _ _ h₁ h₂ => strLt_trans h₁ h₂⟩
  exact List.pairwise_map.mp (List.chain'_iff_pairwise.mp hch)

theorem sortedTable_get_lt (i j : Fin sortedTable.length)
    (hij : (i : Nat) < (j : Nat)) :
    strLt (sortedTable.get i).1 (sortedTable.get j).1 = true := by
  have h := List.pairwise_iff_getElem.mp sortedTable_pairwise
    (i : Nat) (j : Nat) i.isLt j.isLt hij
  simpa [List.get_eq_getElem] using h

/-! ### Binary search: cost bound and equivalence with classify -/

theorem probe_eq_get (i : Nat) (h : i < sortedTable.length) :
    probe i = sortedTable.get ⟨i, h⟩ := by
  rw [probe, List.getD_eq_getElem sortedTable ("", RSVG_ATTRIBUTE_ALTERNATE) h]
  exact (List.get_eq_getElem sortedTable ⟨i, h⟩).symm

theorem bsearchAux_cost (key : String) :
    ∀ (fuel lo hi : Nat), (bsearchAux key fuel lo hi).1 ≤ fuel := by
  intro fuel
  induction fuel with
  | zero => intro lo hi; exact Nat.le_refl 0
  | succ f ih =>
    intro lo hi
    simp only [bsearchAux]
    by_cases h1 : lo < hi
    · rw [if_pos h1]
      by_cases h2 : key = (probe ((lo + hi) / 2)).1
      · rw [if_pos h2]
        exact Nat.succ_le_succ (Nat.zero_le f)
      · rw [if_neg h2]
        by_cases h3 : strLt key (probe ((lo + hi) / 2)).1 = true
        · rw [if_pos h3]
          exact Nat.succ_le_succ (ih lo ((lo + hi) / 2))
        · rw [if_neg h3]
          exact Nat.succ_le_succ (ih ((lo + hi) / 2 + 1) hi)
    · rw [if_neg h1]
      exact Nat.zero_le _

theorem bsearchAux_sound (key : String) :
    ∀ (fuel lo hi : Nat), hi ≤ sortedTable.length →
      ∀ a : RsvgAttribute, (bsearchAux key fuel lo hi).2 = some a →
        (key, a) ∈ sortedTable := by
  intro fuel
  induction fuel with
  | zero =>
    intro lo hi _ a h
    exact absurd h (by simp [bsearchAux])
  | succ f ih =>
    intro lo hi hhi a h
    simp only [bsearchAux] at h
    by_cases h1 : lo < hi
    · rw [if_pos h1] at h
      by_cases h2 : key = (probe ((lo + hi) / 2)).1
      · rw [if_pos h2] at h
        have hmid : (lo + hi) / 2 < sortedTable.length := by omega
        have hpe := probe_eq_get ((lo + hi) / 2) hmid
        have ha : (probe ((lo + hi) / 2)).2 = a := Option.some.inj h
        have hmem : probe ((lo + hi) / 2) ∈ sortedTable := by
          rw [hpe]
          exact List.get_mem sortedTable _ _
        have hkey : (key, a) = probe ((lo + hi) / 2) :=
          Prod.ext h2 ha.symm
        rw [hkey]
        exact hmem
      · rw [if_neg h2] at h
        by_cases h3 : strLt key (probe ((lo + hi) / 2)).1 = true
        · rw [if_pos h3] at h
          exact ih lo ((lo + hi) / 2) (by omega) a h
        · rw [if_neg h3] at h
          exact ih ((lo + hi) / 2 + 1) hi hhi a h
    · rw [if_neg h1] at h
      exact absurd h (by simp)

theorem bsearchAux_complete (key : String) (a : RsvgAttribute) :
    ∀ (fuel lo hi : Nat) (i : Fin sortedTable.length),
      hi ≤ sortedTable.length → hi - lo < 2 ^ fuel →
      lo ≤ (i : Nat) → (i : Nat) < hi →
      sortedTable.get i = (key, a) →
      (bsearchAux key fuel lo hi).2 = some a := by
  intro fuel
  induction fuel with
  | zero =>
    intro lo hi i hhi hfuel hlo hihi hget
    simp only [pow_zero] at hfuel
    omega
  | succ f ih =>
    intro lo hi i hhi hfuel hlo hihi hget
    have hf2 : hi - lo < 2 ^ f * 2 := by
      rw [← pow_succ]
      exact hfuel
    have h1 : lo < hi := Nat.lt_of_le_of_lt hlo hihi
    have hmid : (lo + hi) / 2 < sortedTable.length := by omega
    have hpe := probe_eq_get ((lo + hi) / 2) hmid
    simp only [bsearchAux]
    rw [if_pos h1]
    by_cases h2 : key = (probe ((lo + hi) / 2)).1
    · rw [if_pos h2]
      have hieq : (i : Nat) = (lo + hi) / 2 := by
        rcases Nat.lt_trichotomy (i : Nat) ((lo + hi) / 2) with hlt | heq | hgt
        · have hs := sortedTable_get_lt i ⟨(lo + hi) / 2, hmid⟩ hlt
          rw [hget, ← hpe, ← h2] at hs
          simp only [strLt_irrefl] at hs
          exact absurd hs (by simp)
        · exact heq
        · have hs := sortedTable_get_lt ⟨(lo + hi) / 2, hmid⟩ i hgt
          rw [hget, ← hpe, ← h2] at hs
          simp only [strLt_irrefl] at hs
          exact absurd hs (by simp)
      have hfin : (⟨(lo + hi) / 2, hmid⟩ : Fin sortedTable.length) = i :=
        Fin.ext hieq.symm
      have hprobe : probe ((lo + hi) / 2) = (key, a) := by
        rw [hpe, hfin, hget]
      rw [hprobe]
    · rw [if_neg h2]
      by_cases h3 : strLt key (probe ((lo + hi) / 2)).1 = true
      · rw [if_pos h3]
        have himid : (i : Nat) < (lo + hi) / 2 := by
          rcases Nat.lt_trichotomy (i : Nat) ((lo + hi) / 2) with hlt | heq | hgt
          · exact hlt
          · exact absurd (by
              have hfin : (⟨(lo + hi) / 2, hmid⟩ : Fin sortedTable.length) = i :=
                Fin.ext heq.symm
              rw [hpe, hfin, hget]) h2
          · exfalso
            have hs := sortedTable_get_lt ⟨(lo + hi) / 2, hmid⟩ i hgt
            rw [hget, ← hpe] at hs
            exact strLt_asymm h3 hs
        exact ih lo ((lo + hi) / 2) i (by omega) (by omega) hlo himid hget
      · rw [if_neg h3]
        have himid : (lo + hi) / 2 < (i : Nat) := by
          rcases Nat.lt_trichotomy (i : Nat) ((lo + hi) / 2) with hlt | heq | hgt
          · exfalso
            have hs := sortedTable_get_lt i ⟨(lo + hi) / 2, hmid⟩ hlt
            rw [hget, ← hpe] at hs
            exact h3 hs
          · exact absurd (by
              have hfin : (⟨(lo + hi) / 2, hmid⟩ : Fin sortedTable.length) = i :=
                Fin.ext heq.symm
              rw [hpe, hfin, hget]) h2
          · exact hgt
        exact ih ((lo + hi) / 2 + 1) hi i hhi (by omega) himid hihi hget

set_option maxRecDepth 16384 in
theorem sorted_sub_attr : ∀ p ∈ sortedTable, p ∈ attributeTable := by decide

set_option maxRecDepth 16384 in
theorem attr_sub_sorted : ∀ p ∈ attributeTable, p ∈ sortedTable := by decide

set_option maxRecDepth 16384 in
theorem classifyBin_eq_classify (key : String) : (classifyBin key).2 = classify key := by
  cases hc : classify key with
  | some a =>
    have hmem : (key, a) ∈ attributeTable := mem_of_lookup hc
    have hmem' : (key, a) ∈ sortedTable := attr_sub_sorted _ hmem
    obtain ⟨i, hget⟩ := List.mem_iff_get.mp hmem'
    exact bsearchAux_complete key a 8 0 sortedTable.length i (Nat.le_refl _)
      (by decide) (Nat.zero_le _) i.isLt hget
  | none =>
    cases hb : (classifyBin key).2 with
    | none => rfl
    | some a =>
      have hmem := bsearchAux_sound key 8 0 sortedTable.length (Nat.le_refl _) a hb
      have hcc : classify key = some a :=
        lookup_of_mem keys_nodup (sorted_sub_attr _ hmem)
      rw [hc] at hcc
      exact absurd hcc (by simp)

/-- C8: one classify call costs a logarithmic, not linear, number of key
comparisons in the number N of known names: realized by the spec-sanctioned
sorted-table binary search, which computes exactly classify on every input in
at most log2 N + 1 = 8 comparisons, against N = 146 known names. -/
theorem classify_cost_logarithmic (key : String) :
    (classifyBin key).2 = classify key ∧
    (classifyBin key).1 ≤ Nat.log 2 attributeTable.length + 1 ∧
    Nat.log 2 attributeTable.length = 7 ∧
    7 + 1 < attributeTable.length := by
  have hlen : attributeTable.length = 146 := rfl
  have hlog : Nat.log 2 attributeTable.length = 7 := by
    rw [hlen]
    exact Nat.log_eq_of_pow_le_of_lt_pow (by norm_num) (by norm_num)
  refine ⟨classifyBin_eq_classify key, ?_, hlog, by rw [hlen]; norm_num⟩
  rw [hlog]
  exact bsearchAux_cost key 8 0 sortedTable.length
